import Mathlib

/-!
Shallow embedding of the sim-racing CAN node (src/main.cpp, src/app_config.hpp).

The program holds a gear value (a C++ scoped enum over the seven enumerators
N, First, ..., Sixth with underlying type uint8_t), advances it cyclically once
per tick with an overloaded increment operator, encodes the advanced gear into a
CAN frame with identifier 0x100 and DLC 1, and attempts a bounded-timeout send.
A receive callback, installed behind an exact-match identifier filter, reports
the payload byte of accepted frames.  External effects (device readiness, the
result of can_send) are modelled as explicit inputs; log output is modelled as
a list of log events.
-/

/- Configuration constants from src/app_config.hpp, namespace Config. -/
namespace Config

def CAN_GEAR_MSG_ID : Nat := 0x100

def CAN_MSG_DLC : Nat := 1

def TX_THREAD_STACK_SIZE : Nat := 2048

def TX_THREAD_PRIORITY : Int := 5

/-- GEAR_SHIFT_INTERVAL = K_SECONDS(2), in milliseconds. -/
def GEAR_SHIFT_INTERVAL_MS : Nat := 2000

/-- TX_TIMEOUT = K_MSEC(100), in milliseconds. -/
def TX_TIMEOUT_MS : Nat := 100

end Config

/-- The seven enumerators of `enum class Gear : uint8_t` (main.cpp line 19). -/
inductive Gear : Type where
  | N
  | First
  | Second
  | Third
  | Fourth
  | Fifth
  | Sixth
deriving DecidableEq, Fintype

/-- The underlying uint8_t value of each enumerator: static_cast of Gear to
uint8_t (N = 0, First = 1, ..., Sixth = 6). -/
def Gear.toByte : Gear → Nat
  | .N => 0
  | .First => 1
  | .Second => 2
  | .Third => 3
  | .Fourth => 4
  | .Fifth => 5
  | .Sixth => 6

/-- The static_cast of a uint8_t value back to Gear, as used in the overloaded
increment.  In the source this cast is applied only to values 1..6 (the operand
is not Sixth there); values of 6 and above map to Sixth here, and the cases
0..6 are exact. -/
def gearOfByte : Nat → Gear
  | 0 => .N
  | 1 => .First
  | 2 => .Second
  | 3 => .Third
  | 4 => .Fourth
  | 5 => .Fifth
  | _ => .Sixth

/-- The overloaded increment operator on Gear (main.cpp lines 22-29):
if the gear is Sixth reset to N, otherwise cast the ordinal plus one back to
Gear.  This is the Advance operation of the spec. -/
def incGear (g : Gear) : Gear :=
  if g = Gear.Sixth then Gear.N else gearOfByte (Gear.toByte g + 1)

/-- The same increment at the representation level, on the underlying uint8_t
value: if the byte equals 6 the result is 0, otherwise the byte plus one,
reduced modulo 256 as uint8_t arithmetic demands. -/
def incByte (v : Nat) : Nat :=
  if v = 6 then 0 else (v + 1) % 256

/-- A Zephyr struct can_frame restricted to the fields the program touches:
a 32-bit identifier, a data length code, and an 8-byte data array (modelled as
a list of 8 bytes). -/
structure can_frame where
  id : Nat
  dlc : Nat
  data : List Nat
deriving DecidableEq

/-- Log events emitted by the program, one constructor per LOG_ERR / LOG_INF
call site in main.cpp. -/
inductive LogEvent : Type where
  | errDeviceNotReady
  | errSetMode (ret : Int)
  | errStart (ret : Int)
  | infInitialized
  | infTxGear (b : Nat)
  | errSendFailed (ret : Int)
deriving DecidableEq

/-- Frame preparation inside SimWheel::shift_gear (main.cpp lines 76, 82-85):
a zero-initialized frame whose identifier is Config::CAN_GEAR_MSG_ID, whose
DLC is Config::CAN_MSG_DLC, and whose data[0] is the gear cast to uint8_t. -/
def mkGearFrame (g : Gear) : can_frame :=
  { id := Config.CAN_GEAR_MSG_ID
    dlc := Config.CAN_MSG_DLC
    data := (List.replicate 8 0).set 0 (Gear.toByte g % 256) }

/-- SimWheel::shift_gear (main.cpp lines 75-96).  The result of can_send is an
environment input `ret`; the function returns the updated current_gear, the
frame handed to can_send, and the log event of the tick. -/
def shift_gear (g : Gear) (ret : Int) : Gear × can_frame × LogEvent :=
  let g' := incGear g
  let frame := mkGearFrame g'
  (g', frame,
    if ret = 0 then LogEvent.infTxGear (Gear.toByte g' % 256)
    else LogEvent.errSendFailed ret)

/-- The gear state after n iterations of the while loop in tx_thread_entry
(main.cpp lines 107-114), starting from the constructor-initialized Gear::N,
where `ε k` is the can_send result on the k-th iteration (0-based). -/
def runState (ε : Nat → Int) : Nat → Gear
  | 0 => Gear.N
  | n + 1 => (shift_gear (runState ε n) (ε n)).1

/-- The frame handed to can_send and the log event produced on the (n+1)-th
loop iteration (0-based index n). -/
def tickEvent (ε : Nat → Int) (n : Nat) : can_frame × LogEvent :=
  (shift_gear (runState ε n) (ε n)).2

/-- The environment seen by the SimWheel constructor: the result of
device_is_ready, and the return codes of can_set_mode and can_start. -/
structure InitEnv where
  ready : Bool
  setModeRet : Int
  startRet : Int

/-- The state produced by the SimWheel constructor: the member current_gear,
whether can_set_mode and can_start were invoked, and the log output. -/
structure SimWheelState where
  current_gear : Gear
  modeCalled : Bool
  startCalled : Bool
  logs : List LogEvent
deriving DecidableEq

/-- The SimWheel constructor (main.cpp lines 47-69).  current_gear is
initialized to Gear::N in the member initializer list.  If the device is not
ready the body logs an error and returns early, skipping can_set_mode and
can_start; otherwise both are invoked, a nonzero return code of each is
logged, and the final info message is emitted. -/
def simWheelCtor (env : InitEnv) : SimWheelState :=
  if env.ready = false then
    { current_gear := Gear.N
      modeCalled := false
      startCalled := false
      logs := [LogEvent.errDeviceNotReady] }
  else
    { current_gear := Gear.N
      modeCalled := true
      startCalled := true
      logs :=
        (if env.setModeRet ≠ 0 then [LogEvent.errSetMode env.setModeRet] else []) ++
        (if env.startRet ≠ 0 then [LogEvent.errStart env.startRet] else []) ++
        [LogEvent.infInitialized] }

/-- The effects a receive callback invocation could have: a reported payload
byte (the LOG_INF), frames transmitted from inside the handler, and writes to
the gear state. -/
structure RxEffect where
  report : Option Nat
  sends : List can_frame
  gearWrite : Option Gear
deriving DecidableEq

/-- can_rx_callback (main.cpp lines 120-125): if the frame identifier equals
Config::CAN_GEAR_MSG_ID, report data[0]; the frame is returned unmodified, no
frame is sent and no state is written. -/
def can_rx_callback (frame : can_frame) : can_frame × RxEffect :=
  (frame,
    { report :=
        if frame.id = Config.CAN_GEAR_MSG_ID then some (frame.data.getD 0 0)
        else none
      sends := []
      gearWrite := none })

/-- Zephyr's CAN_STD_ID_MASK: all eleven bits of a standard identifier. -/
def CAN_STD_ID_MASK : Nat := 0x7FF

/-- A Zephyr struct can_filter restricted to the fields main uses. -/
structure can_filter where
  id : Nat
  mask : Nat

/-- The receive filter registered in main (main.cpp lines 133-136). -/
def rxFilter : can_filter := ⟨Config.CAN_GEAR_MSG_ID, CAN_STD_ID_MASK⟩

/-- Delivery of an arriving frame through the registered filter: the callback
runs when the masked frame identifier matches the masked filter identifier
(Zephyr filter semantics); the delivered report is what the callback logs. -/
def rx_deliver (f : can_frame) : Option Nat :=
  if (f.id &&& rxFilter.mask) = (rxFilter.id &&& rxFilter.mask) then
    (can_rx_callback f).2.report
  else none

/-- Decoding of the single payload byte back to a Gear value, the inverse of
the wire encoding (ordinal 0 is Neutral, 1..6 the numbered gears; any other
byte is no gear). -/
def decodeGear : Nat → Option Gear
  | 0 => some .N
  | 1 => some .First
  | 2 => some .Second
  | 3 => some .Third
  | 4 => some .Fourth
  | 5 => some .Fifth
  | 6 => some .Sixth
  | _ => none

/-! Helper lemmas shared by the claim theorems. -/

theorem toByte_incGear (g : Gear) :
    Gear.toByte (incGear g) = (Gear.toByte g + 1) % 7 := by
  cases g <;> rfl

theorem toByte_le_six (g : Gear) : Gear.toByte g ≤ 6 := by
  cases g <;> decide

theorem toByte_mod_256 (g : Gear) : Gear.toByte g % 256 = Gear.toByte g := by
  cases g <;> rfl

theorem gear_mem_seven (g : Gear) :
    g ∈ [Gear.N, Gear.First, Gear.Second, Gear.Third, Gear.Fourth, Gear.Fifth,
      Gear.Sixth] := by
  cases g <;> simp

theorem runState_succ (ε : Nat → Int) (n : Nat) :
    runState ε (n + 1) = incGear (runState ε n) := rfl

theorem toByte_runState (ε : Nat → Int) (n : Nat) :
    Gear.toByte (runState ε n) = n % 7 := by
  induction n with
  | zero => rfl
  | succ n ih =>
      rw [runState_succ, toByte_incGear, ih]
      omega

theorem mkGearFrame_data0 (g : Gear) :
    (mkGearFrame g).data.getD 0 0 = Gear.toByte g := by
  cases g <;> rfl

theorem tickEvent_frame (ε : Nat → Int) (n : Nat) :
    (tickEvent ε n).1 = mkGearFrame (runState ε (n + 1)) := rfl

theorem tickEvent_payload (ε : Nat → Int) (n : Nat) :
    (tickEvent ε n).1.data.getD 0 0 = (n + 1) % 7 := by
  rw [tickEvent_frame, mkGearFrame_data0, toByte_runState]

/-! Claim theorems. -/

/-- C1: incGear (the overloaded increment, the Advance of the spec) is the
cyclic successor Neutral to 1 to 2 ... to 6 back to Neutral: the ordinal of the
successor is the ordinal plus one modulo 7; iterating from Neutral yields
ordinals k mod 7, so the first six applications give First..Sixth in order and
the seventh returns Neutral; as a Lean function it is pure, total and
deterministic on the seven-value set. -/
theorem C1_advance_cyclic_successor :
    (∀ g : Gear, Gear.toByte (incGear g) = (Gear.toByte g + 1) % 7) ∧
    (∀ k : Nat, Gear.toByte (incGear^[k] Gear.N) = k % 7) ∧
    incGear^[1] Gear.N = Gear.First ∧
    incGear^[2] Gear.N = Gear.Second ∧
    incGear^[3] Gear.N = Gear.Third ∧
    incGear^[4] Gear.N = Gear.Fourth ∧
    incGear^[5] Gear.N = Gear.Fifth ∧
    incGear^[6] Gear.N = Gear.Sixth ∧
    incGear^[7] Gear.N = Gear.N := by
  refine ⟨toByte_incGear, ?_, by decide, by decide, by decide, by decide,
    by decide, by decide, by decide⟩
  intro k
  induction k with
  | zero => rfl
  | succ k ih =>
      rw [Function.iterate_succ_apply', toByte_incGear, ih]
      omega

/-- C2: for every Gear g the frame built by shift_gear has identifier 0x100,
DLC 1, and first data byte equal to the ordinal of g; the ordinal is below 256
and is unchanged by the uint8_t reduction, so encoding neither overflows nor
truncates. -/
theorem C2_encode_fields (g : Gear) :
    (mkGearFrame g).id = 0x100 ∧
    (mkGearFrame g).dlc = 1 ∧
    (mkGearFrame g).data.getD 0 0 = Gear.toByte g ∧
    Gear.toByte g < 256 ∧
    Gear.toByte g % 256 = Gear.toByte g := by
  cases g <;> exact ⟨rfl, rfl, rfl, by decide, rfl⟩

/-- C3: decoding the single payload byte of the frame built for g recovers
exactly g, and the frame encoding is injective on the seven gear values. -/
theorem C3_encode_decode_roundtrip (g g' : Gear) :
    decodeGear ((mkGearFrame g).data.getD 0 0) = some g ∧
    (mkGearFrame g = mkGearFrame g' → g = g') := by
  constructor
  · cases g <;> rfl
  · intro h
    cases g <;> cases g' <;> first | rfl | exact absurd h (by decide)

theorem C3_encode_decode_roundtrip_witness :
    decodeGear ((mkGearFrame Gear.Third).data.getD 0 0) = some Gear.Third ∧
    Gear.Third = Gear.Third :=
  ⟨(C3_encode_decode_roundtrip Gear.Third Gear.Third).1,
    (C3_encode_decode_roundtrip Gear.Third Gear.Third).2 rfl⟩

/-- C4: the receive path (registered exact-match filter followed by the
callback's own identifier check) reports the first payload byte exactly when
the frame identifier equals 0x100, and reports nothing for every other
identifier. -/
theorem C4_rx_exact_match (f : can_frame) :
    rx_deliver f =
      if f.id = Config.CAN_GEAR_MSG_ID then some (f.data.getD 0 0) else none := by
  by_cases h : f.id = Config.CAN_GEAR_MSG_ID
  · simp [rx_deliver, rxFilter, can_rx_callback, h]
  · rw [if_neg h]
    simp only [rx_deliver]
    by_cases hm : (f.id &&& rxFilter.mask) = (rxFilter.id &&& rxFilter.mask)
    · rw [if_pos hm]
      simp [can_rx_callback, h]
    · rw [if_neg hm]

/-- C5: when can_send returns a nonzero code on tick N the tick logs a send
failure, and tick N plus one still advances the gear to its successor and hands
can_send a freshly built frame for the advanced gear: the cycle does not
stop. -/
theorem C5_send_failure_nonfatal (ε : Nat → Int) (N : Nat) (h : ε N ≠ 0) :
    (tickEvent ε N).2 = LogEvent.errSendFailed (ε N) ∧
    runState ε (N + 1) = incGear (runState ε N) ∧
    runState ε (N + 2) = incGear (runState ε (N + 1)) ∧
    (tickEvent ε (N + 1)).1 = mkGearFrame (runState ε (N + 2)) := by
  refine ⟨?_, rfl, rfl, rfl⟩
  simp [tickEvent, shift_gear, h]

theorem C5_send_failure_nonfatal_witness :
    (tickEvent (fun _ => (-1 : Int)) 0).2 = LogEvent.errSendFailed (-1) ∧
    runState (fun _ => (-1 : Int)) 1 = incGear (runState (fun _ => (-1 : Int)) 0) ∧
    runState (fun _ => (-1 : Int)) 2 = incGear (runState (fun _ => (-1 : Int)) 1) ∧
    (tickEvent (fun _ => (-1 : Int)) 1).1 =
      mkGearFrame (runState (fun _ => (-1 : Int)) 2) :=
  C5_send_failure_nonfatal (fun _ => (-1 : Int)) 0 (by decide)

/-- C6: no error aborts: the constructor is a total function that always
yields a constructed object with current_gear Neutral; when the readiness
check fails it logs the error and skips mode configuration and start; when it
succeeds, a nonzero can_set_mode or can_start code appears in the log exactly
when the call failed; and the periodic loop keeps ticking (advancing and
building a fresh frame) under every sequence of send results, including
all-failing ones. -/
theorem C6_errors_logged_nonfatal (m s : Int) :
    simWheelCtor ⟨false, m, s⟩ =
      ⟨Gear.N, false, false, [LogEvent.errDeviceNotReady]⟩ ∧
    (∀ env : InitEnv, (simWheelCtor env).current_gear = Gear.N) ∧
    (simWheelCtor ⟨true, m, s⟩).modeCalled = true ∧
    (simWheelCtor ⟨true, m, s⟩).startCalled = true ∧
    (LogEvent.errSetMode m ∈ (simWheelCtor ⟨true, m, s⟩).logs ↔ m ≠ 0) ∧
    (LogEvent.errStart s ∈ (simWheelCtor ⟨true, m, s⟩).logs ↔ s ≠ 0) ∧
    (∀ (ε : Nat → Int) (n : Nat),
      runState ε (n + 1) = incGear (runState ε n) ∧
      (tickEvent ε n).1 = mkGearFrame (runState ε (n + 1))) := by
  refine ⟨?_, ?_, ?_, ?_, ?_, ?_, fun ε n => ⟨rfl, rfl⟩⟩
  · simp [simWheelCtor]
  · intro env
    by_cases he : env.ready = false <;> simp [simWheelCtor, he]
  · simp [simWheelCtor]
  · simp [simWheelCtor]
  · by_cases hm : m = 0 <;> by_cases hs : s = 0 <;>
      simp [simWheelCtor, hm, hs]
  · by_cases hm : m = 0 <;> by_cases hs : s = 0 <;>
      simp [simWheelCtor, hm, hs]

theorem C6_errors_logged_nonfatal_witness :
    simWheelCtor ⟨false, 7, 9⟩ =
      ⟨Gear.N, false, false, [LogEvent.errDeviceNotReady]⟩ ∧
    (simWheelCtor ⟨true, 7, 9⟩).current_gear = Gear.N ∧
    LogEvent.errSetMode 7 ∈ (simWheelCtor ⟨true, 7, 9⟩).logs ∧
    LogEvent.errStart 9 ∈ (simWheelCtor ⟨true, 7, 9⟩).logs ∧
    runState (fun _ => (-5 : Int)) 1 = incGear (runState (fun _ => (-5 : Int)) 0) :=
  ⟨(C6_errors_logged_nonfatal 7 9).1,
    (C6_errors_logged_nonfatal 7 9).2.1 ⟨true, 7, 9⟩,
    (C6_errors_logged_nonfatal 7 9).2.2.2.2.1.mpr (by decide),
    (C6_errors_logged_nonfatal 7 9).2.2.2.2.2.1.mpr (by decide),
    ((C6_errors_logged_nonfatal 7 9).2.2.2.2.2.2 (fun _ => (-5 : Int)) 0).1⟩

/-- C7: the gear state starts at Neutral, is mutated exactly once per tick by
incGear, always stays in the seven-value set, and the mutation at the
representation level maps every in-range uint8_t value to an in-range value;
incGear agrees with the byte-level increment on ordinals. -/
theorem C7_gear_always_in_range :
    (∀ ε : Nat → Int, runState ε 0 = Gear.N) ∧
    (∀ (ε : Nat → Int) (n : Nat), runState ε (n + 1) = incGear (runState ε n)) ∧
    (∀ (ε : Nat → Int) (n : Nat),
      runState ε n ∈ [Gear.N, Gear.First, Gear.Second, Gear.Third, Gear.Fourth,
        Gear.Fifth, Gear.Sixth]) ∧
    (∀ v : Nat, v ≤ 6 → incByte v ≤ 6) ∧
    (∀ g : Gear, Gear.toByte (incGear g) = incByte (Gear.toByte g)) := by
  refine ⟨fun ε => rfl, fun ε n => rfl, fun ε n => gear_mem_seven _, ?_, ?_⟩
  · intro v hv
    unfold incByte
    by_cases h : v = 6
    · simp [h]
    · rw [if_neg h]
      omega
  · intro g
    cases g <;> rfl

theorem C7_gear_always_in_range_witness :
    runState (fun _ => (0 : Int)) 0 = Gear.N ∧ incByte 6 ≤ 6 :=
  ⟨C7_gear_always_in_range.1 (fun _ => (0 : Int)),
    C7_gear_always_in_range.2.2.2.1 6 (by decide)⟩

/-- C8: each tick first advances the gear, then encodes the advanced gear,
then hands exactly that frame to can_send; starting from Neutral the payload
byte of the n-th tick (0-based index n, so tick number n plus one) is the
tick number modulo 7, the sequence 1,2,3,4,5,6,0,1,... -/
theorem C8_tick_order_and_sequence (ε : Nat → Int) (n : Nat) :
    runState ε (n + 1) = incGear (runState ε n) ∧
    (tickEvent ε n).1 = mkGearFrame (runState ε (n + 1)) ∧
    (tickEvent ε n).1.data.getD 0 0 = (n + 1) % 7 :=
  ⟨rfl, rfl, tickEvent_payload ε n⟩

/-- C9: the receive callback is read-only and bounded: it returns the frame
unmodified, sends no frame, writes no gear state, and its report depends only
on the frame identifier and the first payload byte. -/
theorem C9_rx_callback_readonly (f g : can_frame) :
    (can_rx_callback f).1 = f ∧
    (can_rx_callback f).2.sends = [] ∧
    (can_rx_callback f).2.gearWrite = none ∧
    (f.id = g.id → f.data.getD 0 0 = g.data.getD 0 0 →
      (can_rx_callback f).2.report = (can_rx_callback g).2.report) := by
  refine ⟨rfl, rfl, rfl, fun h1 h2 => ?_⟩
  simp only [can_rx_callback]
  rw [h1, h2]

theorem C9_rx_callback_readonly_witness :
    (can_rx_callback ⟨0x100, 1, [4, 0, 0, 0, 0, 0, 0, 0]⟩).1 =
      ⟨0x100, 1, [4, 0, 0, 0, 0, 0, 0, 0]⟩ ∧
    (can_rx_callback ⟨0x100, 1, [4, 0, 0, 0, 0, 0, 0, 0]⟩).2.sends = [] ∧
    (can_rx_callback ⟨0x100, 1, [4, 0, 0, 0, 0, 0, 0, 0]⟩).2.gearWrite = none ∧
    (can_rx_callback ⟨0x100, 1, [4, 0, 0, 0, 0, 0, 0, 0]⟩).2.report =
      (can_rx_callback ⟨0x100, 8, [4, 9, 9, 9, 9, 9, 9, 9]⟩).2.report :=
  ⟨(C9_rx_callback_readonly ⟨0x100, 1, [4, 0, 0, 0, 0, 0, 0, 0]⟩
      ⟨0x100, 8, [4, 9, 9, 9, 9, 9, 9, 9]⟩).1,
    (C9_rx_callback_readonly ⟨0x100, 1, [4, 0, 0, 0, 0, 0, 0, 0]⟩
      ⟨0x100, 8, [4, 9, 9, 9, 9, 9, 9, 9]⟩).2.1,
    (C9_rx_callback_readonly ⟨0x100, 1, [4, 0, 0, 0, 0, 0, 0, 0]⟩
      ⟨0x100, 8, [4, 9, 9, 9, 9, 9, 9, 9]⟩).2.2.1,
    (C9_rx_callback_readonly ⟨0x100, 1, [4, 0, 0, 0, 0, 0, 0, 0]⟩
      ⟨0x100, 8, [4, 9, 9, 9, 9, 9, 9, 9]⟩).2.2.2 rfl rfl⟩

/-- C10: because the gear is advanced before encoding, the very first frame
carries payload 1 (First), never 0; payload 0 occurs exactly on the ticks
whose 1-based number is a multiple of 7; and the gear trace is identical under
any two sequences of send results, so the advance happens regardless of send
success. -/
theorem C10_first_frame_and_independence (ε ε2 : Nat → Int) :
    (tickEvent ε 0).1.data.getD 0 0 = 1 ∧
    (tickEvent ε 0).1 = mkGearFrame Gear.First ∧
    (∀ n : Nat, ((tickEvent ε n).1.data.getD 0 0 = 0 ↔ (n + 1) % 7 = 0)) ∧
    (∀ n : Nat, runState ε n = runState ε2 n) := by
  refine ⟨rfl, rfl, ?_, ?_⟩
  · intro n
    rw [tickEvent_payload]
  · intro n
    induction n with
    | zero => rfl
    | succ n ih => rw [runState_succ, runState_succ, ih]

theorem C10_first_frame_and_independence_witness :
    (tickEvent (fun _ => (0 : Int)) 0).1.data.getD 0 0 = 1 ∧
    (tickEvent (fun _ => (0 : Int)) 6).1.data.getD 0 0 = 0 ∧
    runState (fun _ => (0 : Int)) 10 = runState (fun _ => (-2 : Int)) 10 :=
  ⟨(C10_first_frame_and_independence (fun _ => (0 : Int)) (fun _ => (-2 : Int))).1,
    ((C10_first_frame_and_independence (fun _ => (0 : Int))
      (fun _ => (-2 : Int))).2.2.1 6).mpr (by decide),
    (C10_first_frame_and_independence (fun _ => (0 : Int))
      (fun _ => (-2 : Int))).2.2.2 10⟩
